import Mathlib

/-!
# Convergence predicates of `pkg/testutil/require.go`

A shallow embedding of the polling predicates of the operator's end-to-end
test helpers (`RequireClusterToBeReadyEventually`, `RequireDbContainersToUseImage`,
`clusterIsInitialized`, `clusterIsDecommissioned`, `RequireDecommissionNode`,
`makeDrainStatusChecker`, `RequirePVCToResize`, `resizedPVCs`,
`RequireNumberOfPVCs`) together with theorems about what a single poll tick
returns.

Conventions of the embedding

* A Go `error` value is `Option GoError`; `none` is `nil`.
* A Go function returning `(T, error)` returns a pair.
* Calls into the cluster (`sb.Get`, `sb.List`, `kube.ExecInPod`, the clientset)
  are replaced by the value the call returned; the functions below take these
  values as arguments.
* Logging (`t.Logf`, `logPods`) has no effect on a returned value and is left out.
* A computation that can panic (index out of range, nil dereference) or stop
  the test (`require.NoError` failing inside a tick) returns `Exec`.
-/

namespace Testutil

/-! ## Errors, abnormal termination, poll outcomes -/

/-- Go error values that occur in `require.go`. -/
inductive GoError where
  /-- The sentinel `io.EOF`. -/
  | EOF
  /-- An error created by `errors.New msg`, or any other error identified by its text. -/
  | New (msg : String)
  /-- An API status error whose reason is not-found. -/
  | NotFound (msg : String)
  /-- The `*strconv.NumError` of `strconv.ParseUint`; `range` tells `ErrRange` from `ErrSyntax`. -/
  | NumError (input : String) (range : Bool)
  /-- The result of `errors.Wrap cause msg` for a non-nil `cause`. -/
  | Wrap (cause : GoError) (msg : String)
  deriving DecidableEq

/-- Result of running a piece of Go code that may not return normally. -/
inductive Exec (α : Type) where
  /-- Normal return. -/
  | ret (a : α)
  /-- A run-time panic (index out of range, nil pointer dereference). -/
  | panic
  /-- The test was stopped by a failed `require` assertion (`t.FailNow`). -/
  | failNow
  deriving DecidableEq

/-- The three outcomes of one poll tick. -/
inductive Outcome where
  | Converged
  | Pending
  | Fatal (e : GoError)
  deriving DecidableEq

/-- How `wait.Poll` reads the `(done, err)` pair returned by its condition
function: a non-nil error ends the poll with that error, `done = true` ends it
with success, anything else is retried after the interval. -/
def tickOutcome : Bool × Option GoError → Outcome
  | (_, some e) => Outcome.Fatal e
  | (true, none) => Outcome.Converged
  | (false, none) => Outcome.Pending

/-- Outcome of a tick that returned normally; `none` when it panicked or
stopped the test. -/
def Exec.outcome : Exec (Bool × Option GoError) → Option Outcome
  | Exec.ret r => some (tickOutcome r)
  | Exec.panic => none
  | Exec.failNow => none

/-- The function `errors.Wrap` of `github.com/pkg/errors`: it annotates a
non-nil error with a message and returns `nil` when the error it is given is
`nil`. -/
def errorsWrap (err : Option GoError) (msg : String) : Option GoError :=
  match err with
  | none => none
  | some e => some (GoError.Wrap e msg)

/-- The test `apierrors.IsNotFound`: it holds of an API status error whose
reason is not-found and, as it looks for one with `errors.As`, of an error
that wraps one. -/
def IsNotFound : GoError → Bool
  | GoError.NotFound _ => true
  | GoError.Wrap cause _ => IsNotFound cause
  | _ => false

/-! ## Strings -/

/-- Whether `p` is an initial segment of `s`. -/
def startsWith : List Char → List Char → Bool
  | _, [] => true
  | [], _ :: _ => false
  | c :: s, d :: p => c == d && startsWith s p

/-- Whether `p` occurs in `s` as a contiguous block. -/
def containsChars : List Char → List Char → Bool
  | [], p => startsWith [] p
  | c :: s, p => startsWith (c :: s) p || containsChars s p

/-- The call `strings.Contains s substr`. -/
def stringsContains (s substr : String) : Bool :=
  containsChars s.data substr.data

/-- Scan of `strings.ReplaceAll` for a non-empty `old`, left to right;
`skip` counts the characters of a matched occurrence still to be dropped. -/
def replaceAllAux (old new : List Char) : Nat → List Char → List Char
  | _, [] => []
  | skip + 1, _ :: s => replaceAllAux old new skip s
  | 0, c :: s =>
    if startsWith (c :: s) old then new ++ replaceAllAux old new (old.length - 1) s
    else c :: replaceAllAux old new 0 s

/-- The call `strings.ReplaceAll s old new` (for non-empty `old`). -/
def stringsReplaceAll (s old new : String) : String :=
  ⟨replaceAllAux old.data new.data 0 s.data⟩

/-- The verb `%d` of `fmt.Sprintf` on a non-negative integer. -/
def fmtD (n : Nat) : String := Nat.repr n

/-- One step of the digit loop of `strconv.ParseUint(s, 10, bitSize)`:
`none` is a syntax error, `some (n, true)` a range error. -/
def parseUintStep (maxVal : Nat) (acc : Option (Nat × Bool)) (c : Char) : Option (Nat × Bool) :=
  match acc with
  | none => none
  | some (n, true) => some (n, true)
  | some (n, false) =>
    if '0' ≤ c ∧ c ≤ '9' then
      let d := c.toNat - '0'.toNat
      if n ≥ (2 ^ 64 - 1) / 10 + 1 then some (maxVal, true)
      else
        let n10 := (n * 10) % 2 ^ 64
        let n1 := (n10 + d) % 2 ^ 64
        if n1 < n10 ∨ n1 > maxVal then some (maxVal, true) else some (n1, false)
    else none

/-- The call `strconv.ParseUint(s, 10, bitSize)` for `bitSize` 32 or 64: the
value and the error it returns. -/
def ParseUint (s : String) (bitSize : Nat) : Nat × Option GoError :=
  if s = "" then (0, some (GoError.NumError s false))
  else
    match s.data.foldl (parseUintStep (2 ^ bitSize - 1)) (some (0, false)) with
    | none => (0, some (GoError.NumError s false))
    | some (n, true) => (n, some (GoError.NumError s true))
    | some (n, false) => (n, none)

/-- The conversion `uint64(n)` of a signed integer. -/
def uint64 (n : Int) : Nat := (n % 2 ^ 64).toNat

/-! ## Stateful sets -/

/-- The fields of `appsv1.StatefulSetStatus` that are read. -/
structure StatefulSetStatus where
  Replicas : Int
  ReadyReplicas : Int
  deriving DecidableEq

/-- A volume-claim template of a stateful set (only its name is read). -/
structure PersistentVolumeClaimTemplate where
  Name : String
  deriving DecidableEq

/-- The fields of `appsv1.StatefulSetSpec` that are read; `Replicas` is a
pointer in Go and `none` is the nil pointer. -/
structure StatefulSetSpec where
  Replicas : Option Int
  VolumeClaimTemplates : List PersistentVolumeClaimTemplate
  deriving DecidableEq

/-- The fields of `appsv1.StatefulSet` that are read. -/
structure StatefulSet where
  Name : String
  Spec : StatefulSetSpec
  Status : StatefulSetStatus
  deriving DecidableEq

/-- Source `fetchStatefulSet`; `get` is what `sb.Get(ss)` returned. -/
def fetchStatefulSet (get : Except GoError StatefulSet) : Option StatefulSet × Option GoError :=
  match get with
  | Except.error err => if IsNotFound err then (none, none) else (none, some err)
  | Except.ok ss => (some ss, none)

/-- Source `statefulSetIsReady`. -/
def statefulSetIsReady (ss : StatefulSet) : Bool :=
  ss.Status.ReadyReplicas == ss.Status.Replicas

/-- The condition function polled by `RequireClusterToBeReadyEventuallyTimeout`. -/
def RequireClusterToBeReadyEventuallyTimeout_tick (get : Except GoError StatefulSet) :
    Bool × Option GoError :=
  match fetchStatefulSet get with
  | (_, some err) => (false, some err)
  | (none, none) => (false, none)
  | (some ss, none) => if !statefulSetIsReady ss then (false, none) else (true, none)

/-- The condition function polled by `RequireClusterToBeReadyEventually`. -/
def RequireClusterToBeReadyEventually_tick (get : Except GoError StatefulSet) :
    Bool × Option GoError :=
  match fetchStatefulSet get with
  | (_, some err) => (false, some err)
  | (none, none) => (false, none)
  | (some ss, none) => if !statefulSetIsReady ss then (false, none) else (true, none)

/-! ## Drain status of a decommissioned node -/

/-- What one call of `csv.Reader.Read` returned. -/
inductive ReadResult where
  | record (fields : List String)
  | error (e : GoError)
  deriving DecidableEq

/-- The reader `csv.NewReader(strings.NewReader(stdout))`, given by the results
of its successive `Read` calls; once they are used up `Read` returns `io.EOF`. -/
abbrev CsvReader := List ReadResult

/-- One call of `r.Read()`: the record, the error and the reader afterwards. -/
def CsvReader.Read : CsvReader → (Option (List String) × Option GoError) × CsvReader
  | [] => ((none, some GoError.EOF), [])
  | ReadResult.record fields :: rest => ((some fields, none), rest)
  | ReadResult.error e :: rest => ((none, some e), rest)

/-- What `kube.ExecInPod` returned; `stdout` is held as the csv reader over it. -/
structure ExecResult where
  stdout : CsvReader
  stderror : String
  err : Option GoError
  deriving DecidableEq

/-- The host of the decommissioned pod, `Sprintf("%s-%d.%s.%s", ...)`. -/
def drainHost (stsName : String) (numNodes : Nat) (namespace_ : String) : String :=
  stsName ++ "-" ++ fmtD numNodes ++ "." ++ stsName ++ "." ++ namespace_

/-- Body of the `for` loop of `makeDrainStatusChecker` on a record that was
read; `none` goes on to the next record, `some r` leaves the function with `r`. -/
def drainRecord (host : String) (record : List String) : Option (Exec (Option GoError)) :=
  match record[0]?, record[1]? with
  | some idStr, some address =>
    if !stringsContains address host then none
    else
      match ParseUint idStr 32 with
      | (_, some err) => some (Exec.ret (errorsWrap (some err) "failed to extract node id from string"))
      | (id, none) =>
        match record[8]?, record[9]?, record[10]? with
        | some _, some replicasStr, some isDecommissioning =>
          if isDecommissioning != "true" then
            some (Exec.ret (some (GoError.New "unexpected node status")))
          else
            match ParseUint replicasStr 64 with
            | (_, some err) => some (Exec.ret (errorsWrap (some err) "failed to parse replicas number"))
            | (replicas, err) =>
              if replicas != 0 then
                some (Exec.ret (errorsWrap err
                  ("node " ++ fmtD id ++ " has not completed draining yet")))
              else none
        | _, _, _ => some Exec.panic
  | _, _ => some Exec.panic

/-- The `for` loop of `makeDrainStatusChecker`. -/
def drainLoop (host : String) : CsvReader → Exec (Option GoError)
  | [] => Exec.ret none
  | ReadResult.error err :: _ =>
    if err = GoError.EOF then Exec.ret none
    else Exec.ret (errorsWrap (some err) "failed to get node draining status")
  | ReadResult.record record :: r =>
    match drainRecord host record with
    | some res => res
    | none => drainLoop host r

/-- Source `makeDrainStatusChecker`; `exec` is what `kube.ExecInPod` returned,
`stsName` is `cluster.StatefulSetName()` and `namespace_` is `sb.Namespace`. -/
def makeDrainStatusChecker (exec : ExecResult) (stsName namespace_ : String) (numNodes : Nat) :
    Exec (Option GoError) :=
  if exec.err != none || exec.stderror != "" then Exec.ret exec.err
  else
    match exec.stdout.Read with
    | ((_, some err), _) => Exec.ret (some err)
    | ((_, none), r) => drainLoop (drainHost stsName numNodes namespace_) r

/-- The condition function polled by `RequireDecommissionNode`. -/
def RequireDecommissionNode_tick (get : Except GoError StatefulSet) (exec : ExecResult)
    (stsName namespace_ : String) (numNodes : Int) : Exec (Bool × Option GoError) :=
  match fetchStatefulSet get with
  | (_, some err) => Exec.ret (false, some err)
  | (none, none) => Exec.ret (false, none)
  | (some sts, none) =>
    if !statefulSetIsReady sts then Exec.ret (false, none)
    else if numNodes != sts.Status.Replicas then Exec.ret (false, none)
    else
      match makeDrainStatusChecker exec stsName namespace_ (uint64 numNodes) with
      | Exec.ret (some _) => Exec.ret (false, none)
      | Exec.ret none => Exec.ret (true, none)
      | Exec.panic => Exec.panic
      | Exec.failNow => Exec.failNow

/-! ## Volume claims -/

/-- The numeric value of an `apiresource.Quantity`, in a fixed smallest unit. -/
structure Quantity where
  value : Int
  deriving DecidableEq

/-- The method `Quantity.Equal`: equality of the numeric values. -/
def Quantity.Equal (q v : Quantity) : Bool := q.value == v.value

/-- The fields of `corev1.PersistentVolumeClaim` that are read: `Requests` is
`Spec.Resources.Requests` (resource name to quantity) and `Phase` is `Status.Phase`. -/
structure PersistentVolumeClaim where
  Name : String
  Requests : List (String × Quantity)
  Phase : String
  deriving DecidableEq

/-- The method `ResourceList.Storage`: the quantity under `"storage"`, or the
zero quantity when there is none. -/
def Storage (requests : List (String × Quantity)) : Quantity :=
  match requests.lookup "storage" with
  | some q => q
  | none => ⟨0⟩

/-- The constant `corev1.ClaimBound`. -/
def ClaimBound : String := "Bound"

/-- The keys set to `true` in the map `pvcsToKeep` of `resizedPVCs`:
`Sprintf("%s-%s-%d", pvct.Name, sts.Name, i)` for every template and every
`0 <= i < replicas`. -/
def pvcsToKeep (sts : StatefulSet) (replicas : Int) : List String :=
  sts.Spec.VolumeClaimTemplates.flatMap fun pvct =>
    (List.range replicas.toNat).map fun i => pvct.Name ++ "-" ++ sts.Name ++ "-" ++ fmtD i

/-- The loop of `resizedPVCs` over `pvcs.Items`. -/
def resizedLoop (keep : List String) (quantity : Quantity) : List PersistentVolumeClaim → Bool
  | [] => true
  | pvc :: items =>
    if keep.contains pvc.Name && !(Storage pvc.Requests).Equal quantity then false
    else resizedLoop keep quantity items

/-- Source `resizedPVCs`; `selectorErr` is the error of `LabelSelectorAsSelector`
and `list` is what listing the claims with that selector returned. -/
def resizedPVCs (sts : StatefulSet) (selectorErr : Option GoError)
    (list : Except GoError (List PersistentVolumeClaim)) (quantity : Quantity) :
    Exec (Bool × Option GoError) :=
  match sts.Spec.Replicas with
  | none => Exec.panic
  | some replicas =>
    match selectorErr with
    | some err => Exec.ret (false, some err)
    | none =>
      match list with
      | Except.error err => Exec.ret (false, some err)
      | Except.ok pvcs => Exec.ret (resizedLoop (pvcsToKeep sts replicas) quantity pvcs, none)

/-- The condition function polled by `RequirePVCToResize`; `clientsetErr` is
the error of `kubernetes.NewForConfig`. -/
def RequirePVCToResize_tick (get : Except GoError StatefulSet) (clientsetErr : Option GoError)
    (selectorErr : Option GoError) (list : Except GoError (List PersistentVolumeClaim))
    (quantity : Quantity) : Exec (Bool × Option GoError) :=
  match fetchStatefulSet get with
  | (_, some err) => Exec.ret (false, some err)
  | (none, none) => Exec.ret (false, none)
  | (some ss, none) =>
    if !statefulSetIsReady ss then Exec.ret (false, none)
    else
      match clientsetErr with
      | some _ => Exec.failNow
      | none =>
        match resizedPVCs ss selectorErr list quantity with
        | Exec.ret (_, some _) => Exec.failNow
        | Exec.ret (resized, none) => Exec.ret (resized, none)
        | Exec.panic => Exec.panic
        | Exec.failNow => Exec.failNow

/-- The loop of a `RequireNumberOfPVCs` tick over `pvcs.Items`, from the value
of the captured variable `boundPVCCount` to its value after the loop. -/
def countBound (boundPVCCount : Int) : List PersistentVolumeClaim → Int
  | [] => boundPVCCount
  | pvc :: items =>
    if pvc.Phase == ClaimBound then countBound (boundPVCCount + 1) items
    else countBound boundPVCCount items

/-- The condition function polled by `RequireNumberOfPVCs`: from the value of
`boundPVCCount` before the tick to the returned pair and the value after it.
The error of `fetchStatefulSet` is overwritten before it is read. -/
def RequireNumberOfPVCs_tick (boundPVCCount : Int) (clientsetErr : Option GoError)
    (get : Except GoError StatefulSet) (selectorErr : Option GoError)
    (list : Except GoError (List PersistentVolumeClaim)) :
    Exec ((Bool × Option GoError) × Int) :=
  match clientsetErr with
  | some _ => Exec.failNow
  | none =>
    match fetchStatefulSet get with
    | (none, _) => Exec.panic
    | (some _, _) =>
      match selectorErr with
      | some err => Exec.ret ((false, some err), boundPVCCount)
      | none =>
        match list with
        | Except.error err => Exec.ret ((false, some err), boundPVCCount)
        | Except.ok pvcs => Exec.ret ((true, none), countBound boundPVCCount pvcs)

/-- The assertion `require.Equal(t, quantity, boundPVCCount)` that
`RequireNumberOfPVCs` makes after the poll has returned. -/
def RequireNumberOfPVCs_after (quantity boundPVCCount : Int) : Bool :=
  quantity == boundPVCCount

/-! ## Container images -/

/-- The fields of `corev1.Container` that are read. -/
structure Container where
  Name : String
  Image : String
  deriving DecidableEq

/-- A pod, given by `Spec.Containers`. -/
structure Pod where
  Containers : List Container
  deriving DecidableEq

/-- The fields of `api.CrdbClusterSpec` that are read; `ImageName` is `Spec.Image.Name`. -/
structure CrdbClusterSpec where
  Nodes : Int
  ImageName : String
  CockroachDBVersion : String
  deriving DecidableEq

/-- Modelled from the spec: `kube.FindContainer` is not part of the given
source; it locates the named container among the containers of the pod and
returns an error when there is none. -/
def FindContainer (container : String) (spec : Pod) : Option Container × Option GoError :=
  match spec.Containers.find? (fun c => c.Name == container) with
  | some c => (some c, none)
  | none => (none, some (GoError.New ("failed to find container " ++ container)))

/-- Source `fetchPodsInStatefulSet`; `list` is what `sb.List` returned. -/
def fetchPodsInStatefulSet (list : Except GoError (List Pod)) : List Pod × Option GoError :=
  match list with
  | Except.error err => ([], some err)
  | Except.ok pods => (pods, none)

/-- Source `testPodsWithPredicate`. -/
def testPodsWithPredicate (pods : List Pod) (pred : Pod → Bool) : Bool :=
  match pods with
  | [] => true
  | p :: rest => if !pred p then false else testPodsWithPredicate rest pred

/-- The predicate handed to `testPodsWithPredicate` by
`RequireDbContainersToUseImage`; `DbContainerName` is the constant
`resource.DbContainerName` and `getenv` is `os.Getenv`. -/
def dbImagePredicate (DbContainerName : String) (getenv : String → String)
    (cr : CrdbClusterSpec) (p : Pod) : Bool :=
  match FindContainer DbContainerName p with
  | (_, some _) => false
  | (none, none) => false
  | (some c, none) =>
    if cr.ImageName == "" then
      let version := stringsReplaceAll cr.CockroachDBVersion "." "_"
      let image := getenv ("RELATED_IMAGE_COCKROACH_" ++ version)
      c.Image == image
    else c.Image == cr.ImageName

/-- The condition function polled by `RequireDbContainersToUseImage`. -/
def RequireDbContainersToUseImage_tick (DbContainerName : String) (getenv : String → String)
    (cr : CrdbClusterSpec) (list : Except GoError (List Pod)) : Bool × Option GoError :=
  match fetchPodsInStatefulSet list with
  | (_, some err) => (false, some err)
  | (pods, none) =>
    if (pods.length : Int) < cr.Nodes then (false, none)
    else (testPodsWithPredicate pods (dbImagePredicate DbContainerName getenv cr), none)

/-! ## Cluster conditions -/

/-- The zero value of `metav1.Time` is instant `0`. -/
abbrev Time := Int

/-- Modelled from the spec: the declaration of `api.ClusterCondition` is not
part of the given source; a condition record has a kind, a status and a last
transition time, the three fields the source reads and writes. -/
structure ClusterCondition where
  Type_ : String
  Status : String
  LastTransitionTime : Time
  deriving DecidableEq

/-- The constant `metav1.ConditionTrue`. -/
def ConditionTrue : String := "True"

/-- The constant `metav1.ConditionFalse`. -/
def ConditionFalse : String := "False"

/-- The loop that resets `LastTransitionTime` to the zero time in every condition. -/
def resetTimes (actualConditions : List ClusterCondition) : List ClusterCondition :=
  actualConditions.map fun c => { c with LastTransitionTime := 0 }

/-- Source `clusterIsInitialized`; `InitializedCondition` is the constant
`api.InitializedCondition` and `get` is what `sb.Get(actual)` returned, on
success the `Status.Conditions` of the cluster. -/
def clusterIsInitialized (InitializedCondition : String)
    (get : Except GoError (List ClusterCondition)) : Bool × Option GoError :=
  let expectedConditions : List ClusterCondition :=
    [{ Type_ := InitializedCondition, Status := ConditionFalse, LastTransitionTime := 0 }]
  match get with
  | Except.error err => (false, some err)
  | Except.ok conditions =>
    let actualConditions := resetTimes conditions
    if !(expectedConditions == actualConditions) then (false, none) else (true, none)

/-- Source `clusterIsDecommissioned`; `DecommissionCondition` is the constant
`api.DecommissionCondition` and `get` is what `sb.Get(actual)` returned, on
success the `Status.Conditions` of the cluster. -/
def clusterIsDecommissioned (DecommissionCondition : String)
    (get : Except GoError (List ClusterCondition)) : Bool × Option GoError :=
  let expectedConditions : List ClusterCondition :=
    [{ Type_ := DecommissionCondition, Status := ConditionTrue, LastTransitionTime := 0 }]
  match get with
  | Except.error err => (false, some err)
  | Except.ok conditions =>
    let actualConditions := resetTimes conditions
    if !(expectedConditions == actualConditions) then (false, none) else (true, none)

/-! ## Vocabulary of the statements -/

/-- Column `i` of a record (the empty string when the record is shorter). -/
def field (record : List String) (i : Nat) : String := record.getD i ""

/-- A string that `strconv.ParseUint(s, 10, bitSize)` accepts. -/
def Numeric (s : String) (bitSize : Nat) : Prop := (ParseUint s bitSize).2 = none

/-- A record with an address column that does not contain the target host. -/
def NonMatching (host : String) (record : List String) : Prop :=
  2 ≤ record.length ∧ stringsContains (field record 1) host = false

/-- A record of the target host that is decommissioning and has no replica left. -/
def Drained (host : String) (record : List String) : Prop :=
  11 ≤ record.length ∧ stringsContains (field record 1) host = true ∧
    Numeric (field record 0) 32 ∧ field record 10 = "true" ∧
    ParseUint (field record 9) 64 = (0, none)

/-- A record after which the scan goes on to the next one. -/
def PassedOver (host : String) (record : List String) : Prop :=
  NonMatching host record ∨ Drained host record

instance (s : String) (bitSize : Nat) : Decidable (Numeric s bitSize) :=
  inferInstanceAs (Decidable ((ParseUint s bitSize).2 = none))

instance (host : String) (record : List String) : Decidable (NonMatching host record) :=
  inferInstanceAs (Decidable (_ ∧ _))

instance (host : String) (record : List String) : Decidable (Drained host record) :=
  inferInstanceAs (Decidable (_ ∧ _))

instance (host : String) (record : List String) : Decidable (PassedOver host record) :=
  inferInstanceAs (Decidable (_ ∨ _))

/-- The data rows of a table as results of `Read`. -/
def dataRows (rows : List (List String)) : CsvReader := rows.map ReadResult.record

/-! ## Concrete inputs -/

/-- Header line of `cockroach node status --decommission --format=csv`. -/
def exampleHeader : List String :=
  ["id", "address", "sql_address", "build", "started_at", "updated_at", "locality",
   "is_available", "is_live", "gossiped_replicas", "is_decommissioning", "membership",
   "is_draining"]

/-- A data row with the given id, address, replica count and decommissioning flag. -/
def exampleRow (id address replicas isDecommissioning : String) : List String :=
  [id, address, address, "v21.1.0", "t0", "t1", "", "true", "true", replicas,
   isDecommissioning, "decommissioning", "false"]

/-- A ready stateful set `crdb` with three replicas. -/
def exampleSts : StatefulSet :=
  { Name := "crdb", Spec := { Replicas := some 3, VolumeClaimTemplates := [⟨"datadir"⟩] },
    Status := { Replicas := 3, ReadyReplicas := 3 } }

/-- The output for a table made of the header and the given data rows. -/
def exampleExec (rows : List (List String)) : ExecResult :=
  { stdout := ReadResult.record exampleHeader :: dataRows rows, stderror := "", err := none }

/-- The name `Sprintf("%s-%s-%d", template, stsName, i)` of the claim of a
template for the ordinal `i`. -/
def claimName (template stsName : String) (i : Nat) : String :=
  template ++ "-" ++ stsName ++ "-" ++ fmtD i

/-- A claim name is in scope when it is the name of the claim of one of the
templates of the stateful set for an ordinal `0 <= i < R`. -/
def InScope (sts : StatefulSet) (R : Int) (name : String) : Prop :=
  ∃ pvct ∈ sts.Spec.VolumeClaimTemplates, ∃ i : Nat, (i : Int) < R ∧
    name = claimName pvct.Name sts.Name i

/-- A version string with every `.` replaced by `_`. -/
def replaceDots (version : String) : String :=
  ⟨version.data.map fun c => if c = '.' then '_' else c⟩

/-- The image the database containers are expected to run: the configured
image name when there is one, else the value of the environment variable
named after the version. -/
def expectedImage (getenv : String → String) (cr : CrdbClusterSpec) : String :=
  if cr.ImageName ≠ "" then cr.ImageName
  else getenv ("RELATED_IMAGE_COCKROACH_" ++ replaceDots cr.CockroachDBVersion)

/-- A pod has the database container with the given image when
`FindContainer` returns a container and its image is that one. -/
def HasDbImage (DbContainerName : String) (image : String) (p : Pod) : Prop :=
  ∃ c, (FindContainer DbContainerName p).1 = some c ∧ c.Image = image

/-- Value of a decimal numeral read digit by digit. -/
def decStep (a : Nat) (c : Char) : Nat := 10 * a + (c.toNat - 48)

/-- A claim requesting `value` units of storage in the given phase. -/
def exampleClaim (name : String) (value : Int) (phase : String) : PersistentVolumeClaim :=
  { Name := name, Requests := [("storage", ⟨value⟩)], Phase := phase }

/-- An environment in which only the image of version 21.1.0 is set. -/
def exampleEnv (name : String) : String :=
  if name = "RELATED_IMAGE_COCKROACH_v21_1_0" then "cockroachdb/cockroach:v21.1.0" else ""

/-- A pod with a database container `db` running the given image and a sidecar. -/
def examplePod (image : String) : Pod :=
  { Containers := [⟨"sidecar", "busybox"⟩, ⟨"db", image⟩] }

/-! ## Lemmas on the drain scan -/

theorem getElem?_eq_field (record : List String) (i : Nat) (h : i < record.length) :
    record[i]? = some (field record i) := by
  simp [field, List.getD, List.getElem?_eq_getElem h]

theorem drainRecord_nonMatching (host : String) (record : List String)
    (h : NonMatching host record) : drainRecord host record = none := by
  obtain ⟨hlen, hc⟩ := h
  unfold drainRecord
  rw [getElem?_eq_field record 0 (by omega), getElem?_eq_field record 1 (by omega)]
  simp [hc]

theorem drainRecord_drained (host : String) (record : List String)
    (h : Drained host record) : drainRecord host record = none := by
  obtain ⟨hlen, hc, hid, hdec, hrep⟩ := h
  unfold Numeric at hid
  unfold drainRecord
  rw [getElem?_eq_field record 0 (by omega), getElem?_eq_field record 1 (by omega),
    getElem?_eq_field record 8 (by omega), getElem?_eq_field record 9 (by omega),
    getElem?_eq_field record 10 (by omega)]
  rcases hp : ParseUint (field record 0) 32 with ⟨id, e⟩
  rw [hp] at hid
  simp only at hid
  subst hid
  simp [hc, hdec, hrep, hp]

theorem drainRecord_passedOver (host : String) (record : List String)
    (h : PassedOver host record) : drainRecord host record = none :=
  h.elim (drainRecord_nonMatching host record) (drainRecord_drained host record)

theorem drainRecord_badId (host : String) (record : List String) (e : GoError)
    (hlen : 2 ≤ record.length) (hc : stringsContains (field record 1) host = true)
    (hid : (ParseUint (field record 0) 32).2 = some e) :
    drainRecord host record =
      some (Exec.ret (some (GoError.Wrap e "failed to extract node id from string"))) := by
  unfold drainRecord
  rw [getElem?_eq_field record 0 (by omega), getElem?_eq_field record 1 (by omega)]
  rcases hp : ParseUint (field record 0) 32 with ⟨id, e2⟩
  rw [hp] at hid
  simp only at hid
  subst hid
  simp [hc, errorsWrap, hp]

theorem drainRecord_notDecommissioning (host : String) (record : List String)
    (hlen : 11 ≤ record.length) (hc : stringsContains (field record 1) host = true)
    (hid : Numeric (field record 0) 32) (hdec : field record 10 ≠ "true") :
    drainRecord host record = some (Exec.ret (some (GoError.New "unexpected node status"))) := by
  unfold Numeric at hid
  unfold drainRecord
  rw [getElem?_eq_field record 0 (by omega), getElem?_eq_field record 1 (by omega),
    getElem?_eq_field record 8 (by omega), getElem?_eq_field record 9 (by omega),
    getElem?_eq_field record 10 (by omega)]
  rcases hp : ParseUint (field record 0) 32 with ⟨id, e⟩
  rw [hp] at hid
  simp only at hid
  subst hid
  simp [hc, hdec, hp]

theorem drainRecord_badReplicas (host : String) (record : List String) (e : GoError)
    (hlen : 11 ≤ record.length) (hc : stringsContains (field record 1) host = true)
    (hid : Numeric (field record 0) 32) (hdec : field record 10 = "true")
    (hrep : (ParseUint (field record 9) 64).2 = some e) :
    drainRecord host record =
      some (Exec.ret (some (GoError.Wrap e "failed to parse replicas number"))) := by
  unfold Numeric at hid
  unfold drainRecord
  rw [getElem?_eq_field record 0 (by omega), getElem?_eq_field record 1 (by omega),
    getElem?_eq_field record 8 (by omega), getElem?_eq_field record 9 (by omega),
    getElem?_eq_field record 10 (by omega)]
  rcases hp : ParseUint (field record 0) 32 with ⟨id, e1⟩
  rw [hp] at hid
  simp only at hid
  subst hid
  rcases hq : ParseUint (field record 9) 64 with ⟨n, e2⟩
  rw [hq] at hrep
  simp only at hrep
  subst hrep
  simp [hc, hdec, errorsWrap, hp, hq]

theorem drainLoop_passedOver (host : String) (pre : List (List String)) (r : CsvReader)
    (h : ∀ p ∈ pre, PassedOver host p) :
    drainLoop host (dataRows pre ++ r) = drainLoop host r := by
  induction pre with
  | nil => rfl
  | cons p pre ih =>
    have hp := drainRecord_passedOver host p (h p (List.mem_cons_self p pre))
    have ih2 := ih (fun q hq => h q (List.mem_cons_of_mem p hq))
    simp only [dataRows, List.map_cons, List.cons_append, drainLoop, hp]
    exact ih2

theorem drainLoop_decided (host : String) (pre : List (List String)) (record : List String)
    (post : CsvReader) (res : Exec (Option GoError))
    (h : ∀ p ∈ pre, PassedOver host p) (hr : drainRecord host record = some res) :
    drainLoop host (dataRows pre ++ ReadResult.record record :: post) = res := by
  rw [drainLoop_passedOver host pre _ h]
  simp [drainLoop, hr]

theorem makeDrainStatusChecker_table (header : List String) (r : CsvReader)
    (stsName namespace_ : String) (numNodes : Nat) :
    makeDrainStatusChecker ⟨ReadResult.record header :: r, "", none⟩ stsName namespace_ numNodes
      = drainLoop (drainHost stsName numNodes namespace_) r := by
  simp [makeDrainStatusChecker, CsvReader.Read]

theorem tick_of_checker (sts : StatefulSet) (exec : ExecResult) (stsName namespace_ : String)
    (numNodes : Int) (hready : statefulSetIsReady sts = true)
    (hn : numNodes = sts.Status.Replicas) :
    RequireDecommissionNode_tick (Except.ok sts) exec stsName namespace_ numNodes =
      match makeDrainStatusChecker exec stsName namespace_ (uint64 numNodes) with
      | Exec.ret (some _) => Exec.ret (false, none)
      | Exec.ret none => Exec.ret (true, none)
      | Exec.panic => Exec.panic
      | Exec.failNow => Exec.failNow := by
  simp [RequireDecommissionNode_tick, fetchStatefulSet, hready, hn]

theorem drainRecord_notDrained (host : String) (record : List String) (n : Nat)
    (hlen : 11 ≤ record.length) (hc : stringsContains (field record 1) host = true)
    (hid : Numeric (field record 0) 32) (hdec : field record 10 = "true")
    (hrep : ParseUint (field record 9) 64 = (n, none)) (hn : n ≠ 0) :
    drainRecord host record = some (Exec.ret none) := by
  unfold Numeric at hid
  unfold drainRecord
  rw [getElem?_eq_field record 0 (by omega), getElem?_eq_field record 1 (by omega),
    getElem?_eq_field record 8 (by omega), getElem?_eq_field record 9 (by omega),
    getElem?_eq_field record 10 (by omega)]
  rcases hp : ParseUint (field record 0) 32 with ⟨id, e⟩
  rw [hp] at hid
  simp only at hid
  subst hid
  simp [hc, hdec, hrep, hp, hn, errorsWrap]

theorem tick_not_converged_of_checker (get : Except GoError StatefulSet) (exec : ExecResult)
    (stsName namespace_ : String) (numNodes : Int) (e : GoError)
    (h : makeDrainStatusChecker exec stsName namespace_ (uint64 numNodes) = Exec.ret (some e)) :
    (RequireDecommissionNode_tick get exec stsName namespace_ numNodes).outcome
      ≠ some Outcome.Converged := by
  unfold RequireDecommissionNode_tick
  rw [h]
  rcases get with err | sts
  · simp only [fetchStatefulSet]
    split <;> simp [Exec.outcome, tickOutcome]
  · simp only [fetchStatefulSet]
    split <;> [skip; split] <;> simp [Exec.outcome, tickOutcome]

theorem makeDrainStatusChecker_stderr_only (stdout : CsvReader) (stderror : String)
    (stsName namespace_ : String) (numNodes : Nat) (h : stderror ≠ "") :
    makeDrainStatusChecker ⟨stdout, stderror, none⟩ stsName namespace_ numNodes
      = Exec.ret none := by
  simp [makeDrainStatusChecker, h]

/-! ## Theorems on the drain check -/

/-- C1, evaluated on a table whose second data row is the target host with
`isDecommissioning = "true"` and `replicaCount = "5"`: `makeDrainStatusChecker`
returns `nil` and the tick of `RequireDecommissionNode` is `Converged`, because
`errors.Wrap` is handed the `nil` error of the successful `ParseUint`. -/
theorem C1_nonzero_replicas_reported_drained :
    makeDrainStatusChecker
        (exampleExec [exampleRow "1" "crdb-0.crdb.ns:26257" "12" "false",
          exampleRow "4" "crdb-3.crdb.ns:26257" "5" "true"]) "crdb" "ns" 3 = Exec.ret none ∧
      (RequireDecommissionNode_tick (Except.ok exampleSts)
        (exampleExec [exampleRow "1" "crdb-0.crdb.ns:26257" "12" "false",
          exampleRow "4" "crdb-3.crdb.ns:26257" "5" "true"]) "crdb" "ns" 3).outcome
        = some Outcome.Converged := by
  decide

/-- C2 as stated fails: on a table whose two data rows belong to other hosts
the tick of `RequireDecommissionNode` is `Converged`, not `Pending`. -/
theorem C2_counterexample :
    (RequireDecommissionNode_tick (Except.ok exampleSts)
      (exampleExec [exampleRow "1" "crdb-0.crdb.ns:26257" "12" "false",
        exampleRow "2" "crdb-1.crdb.ns:26257" "9" "false"]) "crdb" "ns" 3).outcome
      = some Outcome.Converged ∧
    (RequireDecommissionNode_tick (Except.ok exampleSts)
      (exampleExec [exampleRow "1" "crdb-0.crdb.ns:26257" "12" "false",
        exampleRow "2" "crdb-1.crdb.ns:26257" "9" "false"]) "crdb" "ns" 3).outcome
      ≠ some Outcome.Pending := by
  decide

/-- C2 (amended): when no data row has an address containing the target host,
`makeDrainStatusChecker` returns `nil`, and the tick of `RequireDecommissionNode`
on a ready stateful set whose replica count is `numNodes` is `Converged`. -/
theorem C2_no_matching_record_converged (header : List String) (rows : List (List String))
    (sts : StatefulSet) (stsName namespace_ : String) (numNodes : Int)
    (hrows : ∀ r ∈ rows, NonMatching (drainHost stsName (uint64 numNodes) namespace_) r)
    (hready : statefulSetIsReady sts = true) (hn : numNodes = sts.Status.Replicas) :
    makeDrainStatusChecker ⟨ReadResult.record header :: dataRows rows, "", none⟩
        stsName namespace_ (uint64 numNodes) = Exec.ret none ∧
      RequireDecommissionNode_tick (Except.ok sts)
        ⟨ReadResult.record header :: dataRows rows, "", none⟩ stsName namespace_ numNodes
        = Exec.ret (true, none) ∧
      (RequireDecommissionNode_tick (Except.ok sts)
        ⟨ReadResult.record header :: dataRows rows, "", none⟩ stsName namespace_ numNodes).outcome
        = some Outcome.Converged := by
  have hc : makeDrainStatusChecker ⟨ReadResult.record header :: dataRows rows, "", none⟩
      stsName namespace_ (uint64 numNodes) = Exec.ret none := by
    rw [makeDrainStatusChecker_table]
    have := drainLoop_passedOver (drainHost stsName (uint64 numNodes) namespace_) rows []
      (fun p hp => Or.inl (hrows p hp))
    rw [List.append_nil] at this
    rw [this]
    rfl
  have ht := tick_of_checker sts ⟨ReadResult.record header :: dataRows rows, "", none⟩
    stsName namespace_ numNodes hready hn
  rw [hc] at ht
  exact ⟨hc, ht, by rw [ht]; rfl⟩

/-- Witness of C2 (amended) on a table with two rows of other hosts. -/
theorem C2_no_matching_record_converged_witness :
    (RequireDecommissionNode_tick (Except.ok exampleSts)
      ⟨ReadResult.record exampleHeader ::
        dataRows [exampleRow "1" "crdb-0.crdb.ns:26257" "12" "false",
          exampleRow "2" "crdb-1.crdb.ns:26257" "x" "false"], "", none⟩ "crdb" "ns" 3).outcome
      = some Outcome.Converged :=
  (C2_no_matching_record_converged exampleHeader
    [exampleRow "1" "crdb-0.crdb.ns:26257" "12" "false",
      exampleRow "2" "crdb-1.crdb.ns:26257" "x" "false"]
    exampleSts "crdb" "ns" 3 (by decide) (by decide) (by decide)).2.2

/-- C3 as stated fails: when the remote command returns a non-nil error the
tick of `RequireDecommissionNode` is `Pending`, not `Fatal`. -/
theorem C3_counterexample :
    makeDrainStatusChecker ⟨[], "", some (GoError.New "command terminated with exit code 1")⟩
        "crdb" "ns" 3 = Exec.ret (some (GoError.New "command terminated with exit code 1")) ∧
      (RequireDecommissionNode_tick (Except.ok exampleSts)
        ⟨[], "", some (GoError.New "command terminated with exit code 1")⟩ "crdb" "ns" 3).outcome
        = some Outcome.Pending ∧
      (RequireDecommissionNode_tick (Except.ok exampleSts)
        ⟨[], "", some (GoError.New "command terminated with exit code 1")⟩ "crdb" "ns" 3).outcome
        ≠ some (Outcome.Fatal (GoError.New "command terminated with exit code 1")) := by
  decide

/-- C3 (amended): when the remote command returns a non-nil error `e`,
whatever its two output streams hold, `makeDrainStatusChecker` returns `e`; the
tick of `RequireDecommissionNode` on a ready stateful set whose replica count is
`numNodes` is then `Pending`, and on no stateful-set snapshot is it `Converged`. -/
theorem C3_exec_error_pending (stdout : CsvReader) (stderror : String) (e : GoError)
    (sts : StatefulSet) (stsName namespace_ : String) (numNodes : Int)
    (hready : statefulSetIsReady sts = true) (hn : numNodes = sts.Status.Replicas) :
    makeDrainStatusChecker ⟨stdout, stderror, some e⟩ stsName namespace_ (uint64 numNodes)
        = Exec.ret (some e) ∧
      RequireDecommissionNode_tick (Except.ok sts) ⟨stdout, stderror, some e⟩
        stsName namespace_ numNodes = Exec.ret (false, none) ∧
      (RequireDecommissionNode_tick (Except.ok sts) ⟨stdout, stderror, some e⟩
        stsName namespace_ numNodes).outcome = some Outcome.Pending ∧
      ∀ get : Except GoError StatefulSet,
        (RequireDecommissionNode_tick get ⟨stdout, stderror, some e⟩
          stsName namespace_ numNodes).outcome ≠ some Outcome.Converged := by
  have hc : makeDrainStatusChecker ⟨stdout, stderror, some e⟩ stsName namespace_
      (uint64 numNodes) = Exec.ret (some e) := by
    simp [makeDrainStatusChecker]
  have ht := tick_of_checker sts ⟨stdout, stderror, some e⟩ stsName namespace_ numNodes hready hn
  rw [hc] at ht
  exact ⟨hc, ht, by rw [ht]; rfl,
    fun get => tick_not_converged_of_checker get _ stsName namespace_ numNodes e hc⟩

/-- Witness of C3 (amended): a command error together with output on both streams. -/
theorem C3_exec_error_pending_witness :
    (RequireDecommissionNode_tick (Except.ok exampleSts)
      ⟨[ReadResult.record exampleHeader], "connection refused", some (GoError.New "exit code 1")⟩
      "crdb" "ns" 3).outcome = some Outcome.Pending :=
  (C3_exec_error_pending [ReadResult.record exampleHeader] "connection refused"
    (GoError.New "exit code 1") exampleSts "crdb" "ns" 3 (by decide) (by decide)).2.2.1

/-- C5 as stated fails: a row of the target host with a numeric id and
`isDecommissioning = "false"` makes `makeDrainStatusChecker` return an error,
and the tick of `RequireDecommissionNode` is `Pending`, not `Fatal`. -/
theorem C5_counterexample :
    makeDrainStatusChecker
        (exampleExec [exampleRow "1" "crdb-0.crdb.ns:26257" "12" "false",
          exampleRow "4" "crdb-3.crdb.ns:26257" "5" "false"]) "crdb" "ns" 3
        = Exec.ret (some (GoError.New "unexpected node status")) ∧
      (RequireDecommissionNode_tick (Except.ok exampleSts)
        (exampleExec [exampleRow "1" "crdb-0.crdb.ns:26257" "12" "false",
          exampleRow "4" "crdb-3.crdb.ns:26257" "5" "false"]) "crdb" "ns" 3).outcome
        = some Outcome.Pending ∧
      (RequireDecommissionNode_tick (Except.ok exampleSts)
        (exampleExec [exampleRow "1" "crdb-0.crdb.ns:26257" "12" "false",
          exampleRow "4" "crdb-3.crdb.ns:26257" "5" "false"]) "crdb" "ns" 3).outcome
        ≠ some (Outcome.Fatal (GoError.New "unexpected node status")) := by
  decide

/-- C5 (amended): when the first data row that the scan does not pass over is
a row of the target host with at least 11 columns, a numeric id and an
`isDecommissioning` column different from `"true"`, `makeDrainStatusChecker`
returns the error "unexpected node status", and the tick of
`RequireDecommissionNode` on a ready stateful set whose replica count is
`numNodes` is `Pending`. -/
theorem C5_not_decommissioning_pending (header : List String) (pre : List (List String))
    (record : List String) (post : CsvReader) (sts : StatefulSet) (stsName namespace_ : String)
    (numNodes : Int)
    (hpre : ∀ p ∈ pre, PassedOver (drainHost stsName (uint64 numNodes) namespace_) p)
    (hlen : 11 ≤ record.length)
    (hc : stringsContains (field record 1) (drainHost stsName (uint64 numNodes) namespace_) = true)
    (hid : Numeric (field record 0) 32) (hdec : field record 10 ≠ "true")
    (hready : statefulSetIsReady sts = true) (hn : numNodes = sts.Status.Replicas) :
    makeDrainStatusChecker
        ⟨ReadResult.record header :: (dataRows pre ++ ReadResult.record record :: post), "", none⟩
        stsName namespace_ (uint64 numNodes)
        = Exec.ret (some (GoError.New "unexpected node status")) ∧
      RequireDecommissionNode_tick (Except.ok sts)
        ⟨ReadResult.record header :: (dataRows pre ++ ReadResult.record record :: post), "", none⟩
        stsName namespace_ numNodes = Exec.ret (false, none) ∧
      (RequireDecommissionNode_tick (Except.ok sts)
        ⟨ReadResult.record header :: (dataRows pre ++ ReadResult.record record :: post), "", none⟩
        stsName namespace_ numNodes).outcome = some Outcome.Pending := by
  have hcheck : makeDrainStatusChecker
      ⟨ReadResult.record header :: (dataRows pre ++ ReadResult.record record :: post), "", none⟩
      stsName namespace_ (uint64 numNodes)
      = Exec.ret (some (GoError.New "unexpected node status")) := by
    rw [makeDrainStatusChecker_table]
    exact drainLoop_decided _ pre record post _ hpre
      (drainRecord_notDecommissioning _ record hlen hc hid hdec)
  have ht := tick_of_checker sts
    ⟨ReadResult.record header :: (dataRows pre ++ ReadResult.record record :: post), "", none⟩
    stsName namespace_ numNodes hready hn
  rw [hcheck] at ht
  exact ⟨hcheck, ht, by rw [ht]; rfl⟩

/-- Witness of C5 (amended): the target row follows a row of another host and
a drained row. -/
theorem C5_not_decommissioning_pending_witness :
    (RequireDecommissionNode_tick (Except.ok exampleSts)
      ⟨ReadResult.record exampleHeader ::
        (dataRows [exampleRow "1" "crdb-0.crdb.ns:26257" "12" "false",
            exampleRow "7" "crdb-3.crdb.ns:26258" "0" "true"] ++
          ReadResult.record (exampleRow "4" "crdb-3.crdb.ns:26257" "5" "false") :: []), "", none⟩
      "crdb" "ns" 3).outcome = some Outcome.Pending :=
  (C5_not_decommissioning_pending exampleHeader
    [exampleRow "1" "crdb-0.crdb.ns:26257" "12" "false",
      exampleRow "7" "crdb-3.crdb.ns:26258" "0" "true"]
    (exampleRow "4" "crdb-3.crdb.ns:26257" "5" "false") [] exampleSts "crdb" "ns" 3
    (by decide) (by decide) (by decide) (by decide) (by decide) (by decide) (by decide)).2.2

/-- C6 as stated fails twice: a non-numeric id in a row of another host is
never parsed (the check returns `nil` and the tick is `Converged`), and a
non-numeric id in the row of the target host gives a parse error after which
the tick is `Pending`, not `Fatal`. -/
theorem C6_counterexample :
    (makeDrainStatusChecker
        (exampleExec [exampleRow "n1" "crdb-0.crdb.ns:26257" "many" "false"]) "crdb" "ns" 3
        = Exec.ret none ∧
      (RequireDecommissionNode_tick (Except.ok exampleSts)
        (exampleExec [exampleRow "n1" "crdb-0.crdb.ns:26257" "many" "false"])
        "crdb" "ns" 3).outcome = some Outcome.Converged) ∧
    (makeDrainStatusChecker
        (exampleExec [exampleRow "n4" "crdb-3.crdb.ns:26257" "0" "true"]) "crdb" "ns" 3
        = Exec.ret (some (GoError.Wrap (GoError.NumError "n4" false)
            "failed to extract node id from string")) ∧
      (RequireDecommissionNode_tick (Except.ok exampleSts)
        (exampleExec [exampleRow "n4" "crdb-3.crdb.ns:26257" "0" "true"])
        "crdb" "ns" 3).outcome = some Outcome.Pending) := by
  decide

/-- C6 (amended): when the first data row that the scan does not pass over is
a row of the target host whose id is not numeric, or which has at least 11
columns, a numeric id, `isDecommissioning = "true"` and a replica count that
is not numeric, `makeDrainStatusChecker` returns the wrapped parse error, and
the tick of `RequireDecommissionNode` on a ready stateful set whose replica
count is `numNodes` is `Pending`; a row of another host is skipped without
being parsed, whatever its id and replica count. -/
theorem C6_parse_error_pending (header : List String) (pre : List (List String))
    (record : List String) (post : CsvReader) (sts : StatefulSet) (stsName namespace_ : String)
    (numNodes : Int)
    (hpre : ∀ p ∈ pre, PassedOver (drainHost stsName (uint64 numNodes) namespace_) p)
    (hlen : 2 ≤ record.length)
    (hc : stringsContains (field record 1) (drainHost stsName (uint64 numNodes) namespace_) = true)
    (hbad : ¬ Numeric (field record 0) 32 ∨
      (11 ≤ record.length ∧ Numeric (field record 0) 32 ∧ field record 10 = "true" ∧
        ¬ Numeric (field record 9) 64))
    (hready : statefulSetIsReady sts = true) (hn : numNodes = sts.Status.Replicas) :
    (∃ e msg, makeDrainStatusChecker
        ⟨ReadResult.record header :: (dataRows pre ++ ReadResult.record record :: post), "", none⟩
        stsName namespace_ (uint64 numNodes) = Exec.ret (some (GoError.Wrap e msg)) ∧
        ((ParseUint (field record 0) 32).2 = some e ∨
          (ParseUint (field record 9) 64).2 = some e)) ∧
      RequireDecommissionNode_tick (Except.ok sts)
        ⟨ReadResult.record header :: (dataRows pre ++ ReadResult.record record :: post), "", none⟩
        stsName namespace_ numNodes = Exec.ret (false, none) ∧
      (RequireDecommissionNode_tick (Except.ok sts)
        ⟨ReadResult.record header :: (dataRows pre ++ ReadResult.record record :: post), "", none⟩
        stsName namespace_ numNodes).outcome = some Outcome.Pending ∧
      ∀ (skipped : List String) (rest : CsvReader),
        NonMatching (drainHost stsName (uint64 numNodes) namespace_) skipped →
        drainLoop (drainHost stsName (uint64 numNodes) namespace_)
            (ReadResult.record skipped :: rest)
          = drainLoop (drainHost stsName (uint64 numNodes) namespace_) rest := by
  have hcheck : ∃ e msg, makeDrainStatusChecker
      ⟨ReadResult.record header :: (dataRows pre ++ ReadResult.record record :: post), "", none⟩
      stsName namespace_ (uint64 numNodes) = Exec.ret (some (GoError.Wrap e msg)) ∧
      ((ParseUint (field record 0) 32).2 = some e ∨
        (ParseUint (field record 9) 64).2 = some e) := by
    rw [makeDrainStatusChecker_table]
    rcases hbad with hid | ⟨hlen11, hid, hdec, hrep⟩
    · obtain ⟨e, he⟩ := Option.ne_none_iff_exists'.mp hid
      exact ⟨e, _, drainLoop_decided _ pre record post _ hpre
        (drainRecord_badId _ record e hlen hc he), Or.inl he⟩
    · obtain ⟨e, he⟩ := Option.ne_none_iff_exists'.mp hrep
      exact ⟨e, _, drainLoop_decided _ pre record post _ hpre
        (drainRecord_badReplicas _ record e hlen11 hc hid hdec he), Or.inr he⟩
  obtain ⟨e, msg, he, hparse⟩ := hcheck
  have ht := tick_of_checker sts
    ⟨ReadResult.record header :: (dataRows pre ++ ReadResult.record record :: post), "", none⟩
    stsName namespace_ numNodes hready hn
  rw [he] at ht
  refine ⟨⟨e, msg, he, hparse⟩, ht, by rw [ht]; rfl, ?_⟩
  intro skipped rest hs
  simp [drainLoop, drainRecord_nonMatching _ skipped hs]

/-- Witness of C6 (amended): the row of the target host has the replica count `"many"`. -/
theorem C6_parse_error_pending_witness :
    (RequireDecommissionNode_tick (Except.ok exampleSts)
      ⟨ReadResult.record exampleHeader ::
        (dataRows [exampleRow "n1" "crdb-0.crdb.ns:26257" "12" "false"] ++
          ReadResult.record (exampleRow "4" "crdb-3.crdb.ns:26257" "many" "true") :: []), "", none⟩
      "crdb" "ns" 3).outcome = some Outcome.Pending :=
  (C6_parse_error_pending exampleHeader [exampleRow "n1" "crdb-0.crdb.ns:26257" "12" "false"]
    (exampleRow "4" "crdb-3.crdb.ns:26257" "many" "true") [] exampleSts "crdb" "ns" 3
    (by decide) (by decide) (by decide) (by decide) (by decide) (by decide)).2.2.1

/-! ## Lemmas on decimal numerals and claim names -/

theorem digitChar_val (d : Nat) (h : d < 10) : (Nat.digitChar d).toNat - 48 = d := by
  interval_cases d <;> rfl

theorem digitChar_ne_dash (d : Nat) (h : d < 10) : Nat.digitChar d ≠ '-' := by
  interval_cases d <;> decide

theorem foldl_toDigitsCore (f : Nat) : ∀ (n : Nat) (ds : List Char), n < f →
    (Nat.toDigitsCore 10 f n ds).foldl decStep 0 = ds.foldl decStep n := by
  induction f with
  | zero => intro n ds h; omega
  | succ f ih =>
    intro n ds h
    simp only [Nat.toDigitsCore]
    split
    · have hn : n < 10 := by omega
      simp [List.foldl, decStep, Nat.mod_eq_of_lt hn, digitChar_val n hn]
    · rw [ih (n / 10) _ (by omega)]
      simp only [List.foldl, decStep, digitChar_val (n % 10) (Nat.mod_lt _ (by decide))]
      congr 1
      omega

theorem fmtD_injective (i j : Nat) (h : (fmtD i).data = (fmtD j).data) : i = j := by
  have hi := foldl_toDigitsCore (i + 1) i [] (by omega)
  have hj := foldl_toDigitsCore (j + 1) j [] (by omega)
  simp only [fmtD, Nat.repr, Nat.toDigits, List.asString] at h
  rw [h] at hi
  rw [hi] at hj
  simpa using hj

theorem toDigitsCore_no_dash (f : Nat) : ∀ (n : Nat) (ds : List Char), '-' ∉ ds →
    '-' ∉ Nat.toDigitsCore 10 f n ds := by
  induction f with
  | zero => intro n ds h; simpa [Nat.toDigitsCore] using h
  | succ f ih =>
    intro n ds h
    have hd : '-' ∉ Nat.digitChar (n % 10) :: ds := by
      simp only [List.mem_cons, not_or]
      exact ⟨fun e => digitChar_ne_dash (n % 10) (Nat.mod_lt _ (by decide)) e.symm, h⟩
    simp only [Nat.toDigitsCore]
    split
    · exact hd
    · exact ih _ _ hd

theorem fmtD_no_dash (n : Nat) : '-' ∉ (fmtD n).data := by
  simp only [fmtD, Nat.repr, Nat.toDigits, List.asString]
  exact toDigitsCore_no_dash _ _ _ (by simp)

theorem tail_after_last (c : Char) : ∀ (l1 l2 d1 d2 : List Char), c ∉ d1 → c ∉ d2 →
    l1 ++ c :: d1 = l2 ++ c :: d2 → d1 = d2 := by
  intro l1
  induction l1 with
  | nil =>
    intro l2 d1 d2 h1 h2 h
    cases l2 with
    | nil => simpa using h
    | cons x l2 =>
      simp only [List.nil_append, List.cons_append, List.cons.injEq] at h
      exact absurd (h.2 ▸ (by simp : c ∈ l2 ++ c :: d2)) h1
  | cons y l1 ih =>
    intro l2 d1 d2 h1 h2 h
    cases l2 with
    | nil =>
      simp only [List.nil_append, List.cons_append, List.cons.injEq] at h
      exact absurd (h.2 ▸ (by simp : c ∈ l1 ++ c :: d1)) h2
    | cons x l2 =>
      simp only [List.cons_append, List.cons.injEq] at h
      exact ih l2 d1 d2 h1 h2 h.2

theorem claimName_ordinal (t1 t2 s1 s2 : String) (i j : Nat)
    (h : claimName t1 s1 i = claimName t2 s2 j) : i = j := by
  have hd := congrArg String.data h
  simp only [claimName, String.data_append] at hd
  simp only [List.append_assoc, List.singleton_append] at hd
  rw [← List.append_assoc, ← List.append_assoc t2.data] at hd
  exact fmtD_injective i j (tail_after_last '-' _ _ _ _ (fmtD_no_dash i) (fmtD_no_dash j) hd)

theorem mem_pvcsToKeep (sts : StatefulSet) (R : Int) (name : String) :
    name ∈ pvcsToKeep sts R ↔ InScope sts R name := by
  simp only [pvcsToKeep, InScope, claimName, List.mem_flatMap, List.mem_map, List.mem_range,
    Int.lt_toNat]
  constructor
  · rintro ⟨pvct, hp, i, hi, rfl⟩
    exact ⟨pvct, hp, i, hi, rfl⟩
  · rintro ⟨pvct, hp, i, hi, rfl⟩
    exact ⟨pvct, hp, i, hi, rfl⟩

theorem not_inScope_of_le (sts : StatefulSet) (R : Int) (template : String) (i : Nat)
    (h : R ≤ i) : ¬ InScope sts R (claimName template sts.Name i) := by
  rintro ⟨pvct, _, j, hj, hname⟩
  have := claimName_ordinal _ _ _ _ _ _ hname
  omega

theorem resizedLoop_eq_true (keep : List String) (quantity : Quantity)
    (pvcs : List PersistentVolumeClaim) :
    resizedLoop keep quantity pvcs = true ↔
      ∀ pvc ∈ pvcs, pvc.Name ∈ keep → (Storage pvc.Requests).value = quantity.value := by
  induction pvcs with
  | nil => simp [resizedLoop]
  | cons pvc items ih =>
    simp only [resizedLoop, List.mem_cons, forall_eq_or_imp]
    split
    · rename_i hbad
      simp [Quantity.Equal] at hbad
      simp only [Bool.false_eq_true, false_iff, not_and]
      intro hfirst
      exact absurd (hfirst hbad.1) hbad.2
    · rename_i hok
      simp [Quantity.Equal] at hok
      rw [ih]
      exact ⟨fun h => ⟨hok, h⟩, fun h => h.2⟩

theorem resizedLoop_eq_false (keep : List String) (quantity : Quantity)
    (pvcs : List PersistentVolumeClaim) :
    resizedLoop keep quantity pvcs = false ↔
      ∃ pvc ∈ pvcs, pvc.Name ∈ keep ∧ (Storage pvc.Requests).value ≠ quantity.value := by
  rw [← Bool.not_eq_true, resizedLoop_eq_true]
  push_neg
  rfl

theorem resizedLoop_append (keep : List String) (quantity : Quantity)
    (pre post : List PersistentVolumeClaim) :
    resizedLoop keep quantity (pre ++ post) =
      (resizedLoop keep quantity pre && resizedLoop keep quantity post) := by
  induction pre with
  | nil => simp [resizedLoop]
  | cons pvc items ih =>
    simp only [List.cons_append, resizedLoop]
    split
    · simp
    · exact ih

theorem resizedLoop_skip (keep : List String) (quantity : Quantity)
    (c : PersistentVolumeClaim) (post : List PersistentVolumeClaim) (h : c.Name ∉ keep) :
    resizedLoop keep quantity (c :: post) = resizedLoop keep quantity post := by
  simp [resizedLoop, h]

theorem countBound_eq (boundPVCCount : Int) (pvcs : List PersistentVolumeClaim) :
    countBound boundPVCCount pvcs =
      boundPVCCount + ((pvcs.filter fun pvc => pvc.Phase == ClaimBound).length : Int) := by
  induction pvcs generalizing boundPVCCount with
  | nil => simp [countBound]
  | cons pvc items ih =>
    simp only [countBound, List.filter_cons]
    split
    · rw [ih]
      simp only [List.length_cons, Nat.cast_add, Nat.cast_one]
      omega
    · exact ih boundPVCCount

theorem replaceAll_dots (s : List Char) :
    replaceAllAux ['.'] ['_'] 0 s = s.map fun c => if c = '.' then '_' else c := by
  induction s with
  | nil => rfl
  | cons c s ih =>
    by_cases hc : c = '.'
    · simp [replaceAllAux, startsWith, hc, ih]
    · simp [replaceAllAux, startsWith, hc, ih]

theorem stringsReplaceAll_dots (version : String) :
    stringsReplaceAll version "." "_" = replaceDots version := by
  have h := replaceAll_dots version.data
  simp only [stringsReplaceAll, replaceDots]
  exact congrArg String.mk h

theorem testPodsWithPredicate_eq_true (pods : List Pod) (pred : Pod → Bool) :
    testPodsWithPredicate pods pred = true ↔ ∀ p ∈ pods, pred p = true := by
  induction pods with
  | nil => simp [testPodsWithPredicate]
  | cons p rest ih =>
    simp only [testPodsWithPredicate, List.mem_cons, forall_eq_or_imp]
    cases hp : pred p
    · simp
    · simpa using ih

theorem dbImagePredicate_eq_true (DbContainerName : String) (getenv : String → String)
    (cr : CrdbClusterSpec) (p : Pod) :
    dbImagePredicate DbContainerName getenv cr p = true ↔
      HasDbImage DbContainerName (expectedImage getenv cr) p := by
  unfold dbImagePredicate HasDbImage expectedImage FindContainer
  rw [stringsReplaceAll_dots]
  cases hfind : p.Containers.find? (fun c => c.Name == DbContainerName) with
  | none => simp
  | some c =>
    by_cases hname : cr.ImageName = ""
    · simp [hname]
    · simp [hname]

/-! ## Theorems on the other predicates -/

/-- C4 as stated fails: with one claim in phase `Bound` and an expected
quantity of 3 the tick of `RequireNumberOfPVCs` is `Converged`, although the
assertion that follows the poll finds the count different from the quantity. -/
theorem C4_counterexample :
    RequireNumberOfPVCs_tick 0 none (Except.ok exampleSts) none
        (Except.ok [exampleClaim "datadir-crdb-0" 10 "Bound",
          exampleClaim "datadir-crdb-1" 10 "Pending"]) = Exec.ret ((true, none), 1) ∧
      tickOutcome (true, none) = Outcome.Converged ∧
      RequireNumberOfPVCs_after 3 1 = false := by
  decide

/-- C4 (amended): whenever the stateful set is fetched, the selector converts
and the claims are listed, the tick of `RequireNumberOfPVCs` returns
`(true, nil)`, so it is `Converged` whatever the number of claims in phase
`Bound`, after adding that number to `boundPVCCount`; on no input does the
tick return `(false, nil)`, so it is never `Pending`. -/
theorem C4_tick_converged_whatever_count (boundPVCCount : Int) (sts : StatefulSet)
    (pvcs : List PersistentVolumeClaim) :
    RequireNumberOfPVCs_tick boundPVCCount none (Except.ok sts) none (Except.ok pvcs)
        = Exec.ret ((true, none),
            boundPVCCount + ((pvcs.filter fun pvc => pvc.Phase == ClaimBound).length : Int)) ∧
      ∀ (count : Int) (clientsetErr : Option GoError) (get : Except GoError StatefulSet)
        (selectorErr : Option GoError) (list : Except GoError (List PersistentVolumeClaim))
        (after : Int),
        RequireNumberOfPVCs_tick count clientsetErr get selectorErr list
          ≠ Exec.ret ((false, none), after) := by
  constructor
  · simp [RequireNumberOfPVCs_tick, fetchStatefulSet, countBound_eq]
  · intro count clientsetErr get selectorErr list after
    unfold RequireNumberOfPVCs_tick
    rcases clientsetErr with _ | ce
    · rcases hf : fetchStatefulSet get with ⟨_ | ss, fe⟩
      · simp
      · rcases selectorErr with _ | se
        · rcases list with le | l <;> simp
        · simp
    · simp

/-- C7: with `R` the replica count of the stateful set, `resizedPVCs` returns
`true` exactly when every listed claim whose name is in scope requests storage
equal to the quantity, and `false` exactly when some listed in-scope claim
requests another quantity; the requests of a claim named after an ordinal
`i >= R` do not change the result; and on a ready stateful set the tick of
`RequirePVCToResize` is `Converged` in the first case and `Pending` in the second. -/
theorem C7_resizedPVCs_in_scope (sts : StatefulSet) (R : Int)
    (pvcs : List PersistentVolumeClaim) (quantity : Quantity)
    (hR : sts.Spec.Replicas = some R) :
    (resizedPVCs sts none (Except.ok pvcs) quantity = Exec.ret (true, none) ↔
        ∀ pvc ∈ pvcs, InScope sts R pvc.Name →
          (Storage pvc.Requests).value = quantity.value) ∧
      (resizedPVCs sts none (Except.ok pvcs) quantity = Exec.ret (false, none) ↔
        ∃ pvc ∈ pvcs, InScope sts R pvc.Name ∧
          (Storage pvc.Requests).value ≠ quantity.value) ∧
      (∀ (template : String) (i : Nat) (pre post : List PersistentVolumeClaim)
        (c : PersistentVolumeClaim) (requests : List (String × Quantity)),
        R ≤ (i : Int) → c.Name = claimName template sts.Name i →
        resizedPVCs sts none (Except.ok (pre ++ c :: post)) quantity =
          resizedPVCs sts none
            (Except.ok (pre ++ { c with Requests := requests } :: post)) quantity) ∧
      (statefulSetIsReady sts = true →
        ((RequirePVCToResize_tick (Except.ok sts) none none (Except.ok pvcs) quantity).outcome
            = some Outcome.Converged ↔
          ∀ pvc ∈ pvcs, InScope sts R pvc.Name →
            (Storage pvc.Requests).value = quantity.value) ∧
        ((RequirePVCToResize_tick (Except.ok sts) none none (Except.ok pvcs) quantity).outcome
            = some Outcome.Pending ↔
          ∃ pvc ∈ pvcs, InScope sts R pvc.Name ∧
            (Storage pvc.Requests).value ≠ quantity.value)) := by
  have hres : ∀ l, resizedPVCs sts none (Except.ok l) quantity
      = Exec.ret (resizedLoop (pvcsToKeep sts R) quantity l, none) := by
    intro l
    simp [resizedPVCs, hR]
  have htrue := resizedLoop_eq_true (pvcsToKeep sts R) quantity pvcs
  have hfalse := resizedLoop_eq_false (pvcsToKeep sts R) quantity pvcs
  simp only [mem_pvcsToKeep] at htrue hfalse
  refine ⟨?_, ?_, ?_, ?_⟩
  · rw [hres, ← htrue]
    simp
  · rw [hres, ← hfalse]
    simp
  · intro template i pre post c requests hi hname
    have hout : c.Name ∉ pvcsToKeep sts R := by
      rw [mem_pvcsToKeep, hname]
      exact not_inScope_of_le sts R template i hi
    rw [hres, hres, resizedLoop_append, resizedLoop_append, resizedLoop_skip _ _ c post hout,
      resizedLoop_skip _ _ { c with Requests := requests } post hout]
  · intro hready
    have htick : RequirePVCToResize_tick (Except.ok sts) none none (Except.ok pvcs) quantity
        = Exec.ret (resizedLoop (pvcsToKeep sts R) quantity pvcs, none) := by
      simp [RequirePVCToResize_tick, fetchStatefulSet, hready, hres]
    rw [htick, ← htrue, ← hfalse]
    cases resizedLoop (pvcsToKeep sts R) quantity pvcs <;>
      simp [Exec.outcome, tickOutcome]

/-- Witness of C7 (scenario F): with three replicas, the claim of ordinal 1
requesting 10 instead of 20 gives `Pending`, whatever the claim of ordinal 3
left behind by a scale-down requests. -/
theorem C7_resizedPVCs_in_scope_witness :
    resizedPVCs exampleSts none
        (Except.ok ([exampleClaim "datadir-crdb-0" 20 "Bound"] ++
          exampleClaim "datadir-crdb-3" 10 "Bound" ::
            [exampleClaim "datadir-crdb-1" 10 "Bound"])) ⟨20⟩ =
      resizedPVCs exampleSts none
        (Except.ok ([exampleClaim "datadir-crdb-0" 20 "Bound"] ++
          { exampleClaim "datadir-crdb-3" 10 "Bound" with Requests := [("storage", ⟨20⟩)] } ::
            [exampleClaim "datadir-crdb-1" 10 "Bound"])) ⟨20⟩ :=
  (C7_resizedPVCs_in_scope exampleSts 3
    ([exampleClaim "datadir-crdb-0" 20 "Bound"] ++
      exampleClaim "datadir-crdb-3" 10 "Bound" :: [exampleClaim "datadir-crdb-1" 10 "Bound"])
    ⟨20⟩ rfl).2.2.1 "datadir" 3 [exampleClaim "datadir-crdb-0" 20 "Bound"]
    [exampleClaim "datadir-crdb-1" 10 "Bound"] (exampleClaim "datadir-crdb-3" 10 "Bound")
    [("storage", ⟨20⟩)] (by decide) (by decide)

/-- C8: the readiness tick of `RequireClusterToBeReadyEventuallyTimeout`, and
likewise that of `RequireClusterToBeReadyEventually`, is `Pending` when the
fetch reports not-found (`apierrors.IsNotFound` holds of the error, also of one
that wraps a not-found error), `Fatal` with the error when the fetch fails otherwise,
`Converged` when the stateful set is present with `ReadyReplicas` equal to
`Replicas`, and `Pending` when it is present and the two differ; it is `Fatal`
only for a fetch error other than not-found. -/
theorem C8_readiness_tick (get : Except GoError StatefulSet) :
    tickOutcome (RequireClusterToBeReadyEventuallyTimeout_tick get) =
        (match get with
          | Except.error err => if IsNotFound err then Outcome.Pending else Outcome.Fatal err
          | Except.ok ss =>
            if ss.Status.ReadyReplicas = ss.Status.Replicas then Outcome.Converged
            else Outcome.Pending) ∧
      RequireClusterToBeReadyEventually_tick get
        = RequireClusterToBeReadyEventuallyTimeout_tick get ∧
      (∀ e, tickOutcome (RequireClusterToBeReadyEventuallyTimeout_tick get) = Outcome.Fatal e ↔
        (get = Except.error e ∧ IsNotFound e = false)) ∧
      ∀ msg wrapMsg : String,
        tickOutcome (RequireClusterToBeReadyEventuallyTimeout_tick
          (Except.error (GoError.NotFound msg))) = Outcome.Pending ∧
        tickOutcome (RequireClusterToBeReadyEventuallyTimeout_tick
          (Except.error (GoError.Wrap (GoError.NotFound msg) wrapMsg))) = Outcome.Pending := by
  have hmain : tickOutcome (RequireClusterToBeReadyEventuallyTimeout_tick get) =
      (match get with
        | Except.error err => if IsNotFound err then Outcome.Pending else Outcome.Fatal err
        | Except.ok ss =>
          if ss.Status.ReadyReplicas = ss.Status.Replicas then Outcome.Converged
          else Outcome.Pending) := by
    rcases get with err | ss
    · cases h : IsNotFound err <;>
        simp [RequireClusterToBeReadyEventuallyTimeout_tick, fetchStatefulSet, h, tickOutcome]
    · by_cases h : ss.Status.ReadyReplicas = ss.Status.Replicas <;>
        simp [RequireClusterToBeReadyEventuallyTimeout_tick, fetchStatefulSet,
          statefulSetIsReady, h, tickOutcome]
  refine ⟨hmain, rfl, ?_, ?_⟩
  swap
  · intro msg wrapMsg
    simp [RequireClusterToBeReadyEventuallyTimeout_tick, fetchStatefulSet, IsNotFound,
      tickOutcome]
  intro e
  rw [hmain]
  rcases get with err | ss
  · cases h : IsNotFound err
    · constructor
      · intro he
        simp only [h, Bool.false_eq_true, if_false, Outcome.Fatal.injEq] at he
        subst he
        exact ⟨rfl, h⟩
      · rintro ⟨he, _⟩
        cases he
        simp [h]
    · constructor
      · intro he
        simp [h] at he
      · rintro ⟨he, hf⟩
        cases he
        rw [h] at hf
        cases hf
  · by_cases h : ss.Status.ReadyReplicas = ss.Status.Replicas <;> simp [h]

/-- C9: on a listed set of pods the tick of `RequireDbContainersToUseImage` is
`Converged` exactly when there are at least `Spec.Nodes` pods and every pod
has the database container with the expected image (the configured image name
when non-empty, else the value of the variable
`RELATED_IMAGE_COCKROACH_<version with '.' replaced by '_'>`), and it is
`Pending` exactly when that fails. -/
theorem C9_image_tick (DbContainerName : String) (getenv : String → String)
    (cr : CrdbClusterSpec) (pods : List Pod) :
    (tickOutcome (RequireDbContainersToUseImage_tick DbContainerName getenv cr (Except.ok pods))
        = Outcome.Converged ↔
      (cr.Nodes ≤ (pods.length : Int) ∧
        ∀ p ∈ pods, HasDbImage DbContainerName (expectedImage getenv cr) p)) ∧
    (tickOutcome (RequireDbContainersToUseImage_tick DbContainerName getenv cr (Except.ok pods))
        = Outcome.Pending ↔
      ¬ (cr.Nodes ≤ (pods.length : Int) ∧
        ∀ p ∈ pods, HasDbImage DbContainerName (expectedImage getenv cr) p)) := by
  have hall := testPodsWithPredicate_eq_true pods (dbImagePredicate DbContainerName getenv cr)
  simp only [dbImagePredicate_eq_true] at hall
  unfold RequireDbContainersToUseImage_tick fetchPodsInStatefulSet
  by_cases hlen : (pods.length : Int) < cr.Nodes
  · have hn : ¬ cr.Nodes ≤ (pods.length : Int) := by omega
    simp [hlen, hn, tickOutcome]
  · have hn : cr.Nodes ≤ (pods.length : Int) := by omega
    simp only [hlen, if_false, hn, true_and, ← hall]
    cases testPodsWithPredicate pods (dbImagePredicate DbContainerName getenv cr) <;>
      simp [tickOutcome]

/-- Witness of C9: two pods whose database container runs the image that the
environment gives for version `v21.1.0`, with two nodes required, are `Converged`. -/
theorem C9_image_tick_witness :
    tickOutcome (RequireDbContainersToUseImage_tick "db" exampleEnv ⟨2, "", "v21.1.0"⟩
      (Except.ok [examplePod "cockroachdb/cockroach:v21.1.0",
        examplePod "cockroachdb/cockroach:v21.1.0"])) = Outcome.Converged :=
  (C9_image_tick "db" exampleEnv ⟨2, "", "v21.1.0"⟩
    [examplePod "cockroachdb/cockroach:v21.1.0",
      examplePod "cockroachdb/cockroach:v21.1.0"]).1.mpr
    ⟨by decide, by
      intro p hp
      simp only [List.mem_cons, List.mem_singleton, List.not_mem_nil, or_false, or_self] at hp
      subst hp
      exact ⟨⟨"db", "cockroachdb/cockroach:v21.1.0"⟩, by decide, by decide⟩⟩

/-- C10: on a fetched status `clusterIsDecommissioned` (resp.
`clusterIsInitialized`) returns `true` exactly when the conditions with their
transition times reset are the one-element sequence `(Decommission, True)`
(resp. `(Initialized, False)`) and `false` otherwise; its result is that on the
conditions with the times reset, so transition times never matter; an empty
sequence or one with more than one condition gives `false`; and a fetch
failure returns the error. -/
theorem C10_condition_checks (kind : String) (conditions : List ClusterCondition) :
    (clusterIsDecommissioned kind (Except.ok conditions) = (true, none) ↔
        resetTimes conditions = [⟨kind, ConditionTrue, 0⟩]) ∧
      (clusterIsDecommissioned kind (Except.ok conditions) = (false, none) ↔
        resetTimes conditions ≠ [⟨kind, ConditionTrue, 0⟩]) ∧
      (clusterIsInitialized kind (Except.ok conditions) = (true, none) ↔
        resetTimes conditions = [⟨kind, ConditionFalse, 0⟩]) ∧
      (clusterIsInitialized kind (Except.ok conditions) = (false, none) ↔
        resetTimes conditions ≠ [⟨kind, ConditionFalse, 0⟩]) ∧
      clusterIsDecommissioned kind (Except.ok conditions)
        = clusterIsDecommissioned kind (Except.ok (resetTimes conditions)) ∧
      clusterIsInitialized kind (Except.ok conditions)
        = clusterIsInitialized kind (Except.ok (resetTimes conditions)) ∧
      (∀ t : Time, clusterIsDecommissioned kind (Except.ok [⟨kind, ConditionTrue, t⟩])
          = (true, none) ∧
        clusterIsInitialized kind (Except.ok [⟨kind, ConditionFalse, t⟩]) = (true, none)) ∧
      (∀ (c d : ClusterCondition) (rest : List ClusterCondition),
        clusterIsDecommissioned kind (Except.ok (c :: d :: rest)) = (false, none) ∧
        clusterIsInitialized kind (Except.ok (c :: d :: rest)) = (false, none)) ∧
      (clusterIsDecommissioned kind (Except.ok []) = (false, none) ∧
        clusterIsInitialized kind (Except.ok []) = (false, none)) ∧
      ∀ e : GoError, clusterIsDecommissioned kind (Except.error e) = (false, some e) ∧
        clusterIsInitialized kind (Except.error e) = (false, some e) := by
  have hidem : resetTimes (resetTimes conditions) = resetTimes conditions := by
    simp [resetTimes]
  refine ⟨?_, ?_, ?_, ?_, ?_, ?_, ?_, ?_, ?_, ?_⟩
  · by_cases h : [(⟨kind, ConditionTrue, 0⟩ : ClusterCondition)] = resetTimes conditions
    · simp [clusterIsDecommissioned, h]
    · simp [clusterIsDecommissioned, h, Ne.symm h]
  · by_cases h : [(⟨kind, ConditionTrue, 0⟩ : ClusterCondition)] = resetTimes conditions
    · simp [clusterIsDecommissioned, h]
    · simp [clusterIsDecommissioned, h, Ne.symm h]
  · by_cases h : [(⟨kind, ConditionFalse, 0⟩ : ClusterCondition)] = resetTimes conditions
    · simp [clusterIsInitialized, h]
    · simp [clusterIsInitialized, h, Ne.symm h]
  · by_cases h : [(⟨kind, ConditionFalse, 0⟩ : ClusterCondition)] = resetTimes conditions
    · simp [clusterIsInitialized, h]
    · simp [clusterIsInitialized, h, Ne.symm h]
  · simp only [clusterIsDecommissioned, hidem]
  · simp only [clusterIsInitialized, hidem]
  · intro t
    simp [clusterIsDecommissioned, clusterIsInitialized, resetTimes]
  · intro c d rest
    simp [clusterIsDecommissioned, clusterIsInitialized, resetTimes]
  · simp [clusterIsDecommissioned, clusterIsInitialized, resetTimes]
  · intro e
    simp [clusterIsDecommissioned, clusterIsInitialized]

end Testutil
